import Mathlib

/-!
Shallow embedding of the matching subsystem (`app/routers/matching.py`).

The store is modelled as an explicit state `DB` holding the `User` and
`Match` rows; each endpoint handler becomes a pure function from its
inputs and the current `DB` to the next `DB` together with an
`Except ApiError` result.  SQL queries whose result order is partly
decided by the database (`func.random()`, ties under `ORDER BY`) are
modelled by passing the ordered result list as a parameter, constrained
by a predicate saying it is a permutation of the filtered rows in an
order compatible with the `ORDER BY` clause.
-/

/-- Modelled from the spec: the repository's `models.py` (the SQLAlchemy
`User` model) is not under `src/`; its columns are taken from spec §3
and from the fields the router reads (`id`, `mbti` as the personality
type, `gender`, `matching_status`). -/
structure User where
  id : Nat
  mbti : String
  gender : String
  matching_status : String
deriving DecidableEq, Repr

/-- Modelled from the spec: the repository's `models.py` (the SQLAlchemy
`Match` model) is not under `src/`; its columns are taken from spec §3
and from the fields the router reads (`id` primary key, `requester_id`,
`responder_id`, `status`, `created_at`).  `created_at` is a timestamp
used only for ordering, modelled as a `Nat`. -/
structure Match where
  id : Nat
  requester_id : Nat
  responder_id : Nat
  status : String
  created_at : Nat
deriving DecidableEq, Repr

/-- The transactional store: the `User` and `Match` tables. -/
structure DB where
  users : List User
  matchRows : List Match
deriving DecidableEq, Repr

/-- An operation failure: either a raised `HTTPException` (status code and
detail, as in the source) or SQLAlchemy's `MultipleResultsFound`, raised by
`scalar_one_or_none` when the query returns more than one row. -/
inductive ApiError where
  | http (status_code : Nat) (detail : String)
  | multipleResultsFound
deriving DecidableEq, Repr

deriving instance DecidableEq for Except

/-- The static `mbti_compatibility` dict of `matching.py`; lookup of an
unknown code yields `[]`, as `dict.get(current_mbti, [])` does. -/
def mbti_compatibility (m : String) : List String :=
  if m = "INFP" then ["ENFJ", "ENTJ"]
  else if m = "ENFP" then ["INFJ", "INTJ"]
  else if m = "INFJ" then ["ENFP", "ENTP"]
  else if m = "ENFJ" then ["INFP", "ISFP"]
  else if m = "INTJ" then ["ENFP", "ENTP"]
  else if m = "ENTJ" then ["INFP", "INTP"]
  else if m = "INTP" then ["ENTJ", "ISTJ"]
  else if m = "ENTP" then ["INFJ", "INTJ"]
  else if m = "ISFP" then ["ESFJ", "ESTJ", "ESTP"]
  else if m = "ESFP" then ["ISFJ", "ISTJ"]
  else if m = "ISTP" then ["ESFJ", "ESTJ"]
  else if m = "ESTP" then ["ISFJ", "ISTJ"]
  else if m = "ISFJ" then ["ESFP", "ESTP"]
  else if m = "ESFJ" then ["ISFP", "ISTP"]
  else if m = "ISTJ" then ["ESFP", "ESTP"]
  else if m = "ESTJ" then ["ISFP", "ISTP"]
  else []

/-- `db.get(User, uid)`: primary-key lookup in the `User` table. -/
def dbGetUser (db : DB) (uid : Nat) : Option User :=
  db.users.find? (fun u => u.id == uid)

/-- The WHERE clause of the candidate query in `get_matching_list`:
`matching_status == "none"`, opposite gender, not the requesting user. -/
def eligibleCandidates (cu : User) (db : DB) : List User :=
  db.users.filter (fun u =>
    u.matching_status == "none" && u.gender != cu.gender && u.id != cu.id)

/-- The CASE expression of the ORDER BY in `get_matching_list`: tier 1 when
the candidate's mbti is in the requesting user's compatibility list, else 2. -/
def candTier (cu u : User) : Nat :=
  if u.mbti ∈ mbti_compatibility cu.mbti then 1 else 2

/-- The orderings the database may return for the candidate query: a
permutation of the eligible rows (`func.random()` decides the rest) that is
sorted by the compatibility tier, as the ORDER BY requires. -/
def IsCandidateOrdering (cu : User) (db : DB) (L : List User) : Prop :=
  L.Perm (eligibleCandidates cu db) ∧
    L.Pairwise (fun a b => candTier cu a ≤ candTier cu b)

/-- `get_matching_list` after the query: `L` is the ordered candidate list the
database produced (before LIMIT); the handler keeps the first 4 rows and
raises 404 when the result is empty. -/
def get_matching_list (L : List User) : Except ApiError (List User) :=
  let users := L.take 4
  if users.isEmpty then .error (.http 404 "No matching users found")
  else .ok users

/-- The WHERE clause of the match query in `get_matching_partner`: the user is
requester or responder and the status is waiting, accept or reject. -/
def relevantMatches (cu : User) (db : DB) : List Match :=
  db.matchRows.filter (fun m =>
    (m.requester_id == cu.id || m.responder_id == cu.id) &&
      (m.status == "waiting" || m.status == "accept" || m.status == "reject"))

/-- The orderings the database may return for that query: a permutation of the
relevant rows sorted by `created_at` descending (ties broken arbitrarily). -/
def IsMatchOrdering (cu : User) (db : DB) (L : List Match) : Prop :=
  L.Perm (relevantMatches cu db) ∧
    L.Pairwise (fun a b => b.created_at ≤ a.created_at)

/-- The partner-id selection in `get_matching_partner`: the responder when the
current user is the requester, otherwise the requester. -/
def otherPartyId (cu : User) (m : Match) : Nat :=
  if m.requester_id == cu.id then m.responder_id else m.requester_id

/-- `get_matching_partner`: takes the first row of the ordered match list `L`,
404 when there is none; resolves the other party, 404 when that user row is
missing; otherwise returns the partner. -/
def get_matching_partner (cu : User) (db : DB) (L : List Match) :
    Except ApiError User :=
  match L.head? with
  | none => .error (.http 404 "No matching partner found")
  | some m =>
      match dbGetUser db (otherPartyId cu m) with
      | none => .error (.http 404 "Matching partner not found")
      | some partner => .ok partner

/-- `send_matching_request`: rejects with 400 when the current user's status is
waiting or accept; 404 when the partner id resolves to no user; otherwise adds
one `Match` row in `waiting` state and sets the requester's status to waiting.
`newId` and `newTime` stand for the primary key and `created_at` the database
assigns to the new row at commit.  The returned `DB` is the committed state;
on an exception nothing was committed, so the state is unchanged. -/
def send_matching_request (partner_id : Nat) (cu : User) (db : DB)
    (newId newTime : Nat) : DB × Except ApiError String :=
  if cu.matching_status == "waiting" || cu.matching_status == "accept" then
    (db, .error (.http 400 "You already have a pending or accepted match"))
  else
    match dbGetUser db partner_id with
    | none => (db, .error (.http 404 "Partner not found"))
    | some _ =>
        let m : Match :=
          { id := newId, requester_id := cu.id, responder_id := partner_id,
            status := "waiting", created_at := newTime }
        ({ users := db.users.map (fun u =>
              if u.id == cu.id then { u with matching_status := "waiting" }
              else u),
            matchRows := db.matchRows ++ [m] },
          .ok "Match request sent successfully")

/-- The WHERE clause of the match lookup in `handle_matching_request`:
`requester_id == match_id` and `responder_id == current_user.id`. -/
def findMatches (match_id responder_id : Nat) (db : DB) : List Match :=
  db.matchRows.filter (fun m =>
    m.requester_id == match_id && m.responder_id == responder_id)

/-- Row update on the `Match` table: set the status of the row with the given
primary key (the ORM mutation `match.status = ...`). -/
def setMatchStatus (ms : List Match) (mid : Nat) (s : String) : List Match :=
  ms.map (fun x => if x.id == mid then { x with status := s } else x)

/-- Row update on the `User` table: set the matching status of the row with
the given primary key (the ORM mutation `user.matching_status = ...`). -/
def setUserStatus (us : List User) (uid : Nat) (s : String) : List User :=
  us.map (fun u => if u.id == uid then { u with matching_status := s } else u)

/-- `handle_matching_request`: looks the match up by (requester id = match_id,
responder id = current user) with `scalar_one_or_none` — 404 when no row,
`MultipleResultsFound` when more than one.  On accept it sets the match, the
requester (when that user row exists) and the current user to accept; on
reject it only sets the match status. -/
def handle_matching_request (match_id : Nat) (accept : Bool) (cu : User)
    (db : DB) : DB × Except ApiError String :=
  match findMatches match_id cu.id db with
  | [] =>
      (db, .error (.http 404
        "Match request not found or you are not authorized to respond"))
  | [m] =>
      if accept then
        let ms := setMatchStatus db.matchRows m.id "accept"
        let users :=
          match dbGetUser db m.requester_id with
          | some _ => setUserStatus db.users m.requester_id "accept"
          | none => db.users
        let users := setUserStatus users cu.id "accept"
        ({ users := users, matchRows := ms },
          .ok "Match request handled successfully")
      else
        ({ users := db.users, matchRows := setMatchStatus db.matchRows m.id "reject" },
          .ok "Match request handled successfully")
  | _ :: _ :: _ => (db, .error .multipleResultsFound)

/-! ### Helper lemmas about the row updates and queries -/

theorem setUserStatus_eq_status (us : List User) (uid : Nat) (s : String) :
    ∀ u ∈ setUserStatus us uid s, u.id = uid → u.matching_status = s := by
  intro u hu hid
  simp only [setUserStatus, List.mem_map] at hu
  obtain ⟨v, hv, rfl⟩ := hu
  by_cases h : v.id = uid
  · simp [h]
  · simp only [beq_iff_eq, h, if_false] at hid ⊢

theorem setUserStatus_mem_of_ne (us : List User) (uid : Nat) (s : String)
    (u : User) (hu : u ∈ setUserStatus us uid s) (h : u.id ≠ uid) : u ∈ us := by
  simp only [setUserStatus, List.mem_map] at hu
  obtain ⟨v, hv, rfl⟩ := hu
  by_cases hv2 : v.id = uid
  · simp [hv2] at h
  · simpa [hv2] using hv

theorem mem_setUserStatus_of_ne (us : List User) (uid : Nat) (s : String)
    (u : User) (hu : u ∈ us) (h : u.id ≠ uid) : u ∈ setUserStatus us uid s := by
  simp only [setUserStatus, List.mem_map]
  exact ⟨u, hu, by simp [h]⟩

theorem mem_setMatchStatus_self (ms : List Match) (s : String)
    (m : Match) (hm : m ∈ ms) :
    { m with status := s } ∈ setMatchStatus ms m.id s := by
  simp only [setMatchStatus, List.mem_map]
  exact ⟨m, hm, by simp⟩

theorem mem_setMatchStatus_of_ne (ms : List Match) (mid : Nat) (s : String)
    (m : Match) (hm : m ∈ ms) (h : m.id ≠ mid) : m ∈ setMatchStatus ms mid s := by
  simp only [setMatchStatus, List.mem_map]
  exact ⟨m, hm, by simp [h]⟩

theorem findMatches_singleton (Q rid : Nat) (db : DB) (m : Match)
    (hm : findMatches Q rid db = [m]) :
    m ∈ db.matchRows ∧ m.requester_id = Q ∧ m.responder_id = rid := by
  have h1 : m ∈ findMatches Q rid db := by rw [hm]; exact List.mem_singleton_self m
  simp only [findMatches, List.mem_filter, Bool.and_eq_true, beq_iff_eq] at h1
  exact ⟨h1.1, h1.2.1, h1.2.2⟩

/-! ### Claims -/

/-- Claim C1: for a user whose `matching_status` is waiting or accept,
`send_matching_request` fails with the 400 conflict error and leaves the store
unchanged; for a user whose status is neither, if the partner id resolves to no
`User`, it fails with the 404 not-found error and leaves the store unchanged. -/
theorem requestMatch_precondition_failures (cu : User) (db : DB)
    (pid nid nt : Nat) :
    (cu.matching_status = "waiting" ∨ cu.matching_status = "accept" →
      send_matching_request pid cu db nid nt =
        (db, .error (.http 400 "You already have a pending or accepted match"))) ∧
    (cu.matching_status ≠ "waiting" → cu.matching_status ≠ "accept" →
      dbGetUser db pid = none →
      send_matching_request pid cu db nid nt =
        (db, .error (.http 404 "Partner not found"))) := by
  constructor
  · intro h
    have hb : (cu.matching_status == "waiting" || cu.matching_status == "accept")
        = true := by
      rcases h with h | h <;> simp [h]
    simp [send_matching_request, hb]
  · intro h1 h2 h3
    have hb : (cu.matching_status == "waiting" || cu.matching_status == "accept")
        = false := by
      simp [h1, h2]
    simp [send_matching_request, hb, h3]

theorem requestMatch_precondition_failures_witness :
    send_matching_request 2 ⟨1, "INFP", "M", "waiting"⟩ ⟨[], []⟩ 10 0 =
      (⟨[], []⟩, .error (.http 400 "You already have a pending or accepted match")) ∧
    send_matching_request 2 ⟨1, "INFP", "M", "none"⟩ ⟨[], []⟩ 10 0 =
      (⟨[], []⟩, .error (.http 404 "Partner not found")) :=
  ⟨(requestMatch_precondition_failures ⟨1, "INFP", "M", "waiting"⟩ ⟨[], []⟩ 2 10 0).1
      (Or.inl rfl),
   (requestMatch_precondition_failures ⟨1, "INFP", "M", "none"⟩ ⟨[], []⟩ 2 10 0).2
      (by decide) (by decide) rfl⟩

/-- Claim C2 counterexample: the code never checks that the partner differs
from the requester.  With a single user (id 1, status `none`) requesting
partner id 1, the partner resolves to the requester, the call succeeds, and
the partner's stored `matching_status` changes from `none` to `waiting` —
refuting "leaves P.matching_status unchanged" for every existing partner P. -/
theorem requestMatch_self_partner_status_changes :
    dbGetUser ⟨[⟨1, "INFP", "M", "none"⟩], []⟩ 1 = some ⟨1, "INFP", "M", "none"⟩ ∧
    (send_matching_request 1 ⟨1, "INFP", "M", "none"⟩
        ⟨[⟨1, "INFP", "M", "none"⟩], []⟩ 10 5).2 =
      .ok "Match request sent successfully" ∧
    (send_matching_request 1 ⟨1, "INFP", "M", "none"⟩
        ⟨[⟨1, "INFP", "M", "none"⟩], []⟩ 10 5).1.users =
      [⟨1, "INFP", "M", "waiting"⟩] := by
  decide

/-- Claim C2 (amended: the partner must be a user other than the requester,
`P.id ≠ U.id`; the unchecked self-request case is the counterexample): a
successful `send_matching_request` appends exactly one `waiting` Match with
the requester and responder ids, sets every stored row with the requester's id
to `waiting`, keeps the partner's row unchanged, and preserves every other
user's fields (only the requester's `matching_status` changes). -/
theorem requestMatch_success_postconditions (cu P : User) (db : DB)
    (pid nid nt : Nat)
    (h1 : cu.matching_status ≠ "waiting") (h2 : cu.matching_status ≠ "accept")
    (hP : dbGetUser db pid = some P) (hne : P.id ≠ cu.id) :
    (send_matching_request pid cu db nid nt).2 =
      .ok "Match request sent successfully" ∧
    (send_matching_request pid cu db nid nt).1.matchRows =
      db.matchRows ++ [⟨nid, cu.id, pid, "waiting", nt⟩] ∧
    (∀ u ∈ (send_matching_request pid cu db nid nt).1.users,
      u.id = cu.id → u.matching_status = "waiting") ∧
    P ∈ (send_matching_request pid cu db nid nt).1.users ∧
    (∀ u ∈ db.users, ∃ v ∈ (send_matching_request pid cu db nid nt).1.users,
      v.id = u.id ∧ v.mbti = u.mbti ∧ v.gender = u.gender ∧
        (u.id ≠ cu.id → v = u)) := by
  have hb : (cu.matching_status == "waiting" || cu.matching_status == "accept")
      = false := by
    simp [h1, h2]
  have hres : send_matching_request pid cu db nid nt =
      ({ users := setUserStatus db.users cu.id "waiting",
         matchRows := db.matchRows ++ [⟨nid, cu.id, pid, "waiting", nt⟩] },
        .ok "Match request sent successfully") := by
    simp [send_matching_request, hb, hP, setUserStatus]
  have hmemP : P ∈ db.users := by
    have := List.find?_some hP
    exact List.mem_of_find?_eq_some hP
  rw [hres]
  refine ⟨rfl, rfl, ?_, ?_, ?_⟩
  · exact setUserStatus_eq_status db.users cu.id "waiting"
  · exact mem_setUserStatus_of_ne db.users cu.id "waiting" P hmemP hne
  · intro u hu
    by_cases h : u.id = cu.id
    · refine ⟨{ u with matching_status := "waiting" }, ?_, rfl, rfl, rfl, ?_⟩
      · simp only [setUserStatus, List.mem_map]
        exact ⟨u, hu, by simp [h]⟩
      · intro hne2
        exact absurd h hne2
    · exact ⟨u, mem_setUserStatus_of_ne db.users cu.id "waiting" u hu h,
        rfl, rfl, rfl, fun _ => rfl⟩

theorem requestMatch_success_postconditions_witness :
    (send_matching_request 2 ⟨1, "INFP", "M", "none"⟩
        ⟨[⟨1, "INFP", "M", "none"⟩, ⟨2, "ENFJ", "F", "none"⟩], []⟩ 10 5).2 =
      .ok "Match request sent successfully" ∧
    (send_matching_request 2 ⟨1, "INFP", "M", "none"⟩
        ⟨[⟨1, "INFP", "M", "none"⟩, ⟨2, "ENFJ", "F", "none"⟩], []⟩ 10 5).1.matchRows =
      (⟨[⟨1, "INFP", "M", "none"⟩, ⟨2, "ENFJ", "F", "none"⟩], []⟩ : DB).matchRows ++
        [⟨10, 1, 2, "waiting", 5⟩] ∧
    (∀ u ∈ (send_matching_request 2 ⟨1, "INFP", "M", "none"⟩
        ⟨[⟨1, "INFP", "M", "none"⟩, ⟨2, "ENFJ", "F", "none"⟩], []⟩ 10 5).1.users,
      u.id = (⟨1, "INFP", "M", "none"⟩ : User).id → u.matching_status = "waiting") ∧
    (⟨2, "ENFJ", "F", "none"⟩ : User) ∈ (send_matching_request 2 ⟨1, "INFP", "M", "none"⟩
        ⟨[⟨1, "INFP", "M", "none"⟩, ⟨2, "ENFJ", "F", "none"⟩], []⟩ 10 5).1.users ∧
    (∀ u ∈ (⟨[⟨1, "INFP", "M", "none"⟩, ⟨2, "ENFJ", "F", "none"⟩], []⟩ : DB).users,
      ∃ v ∈ (send_matching_request 2 ⟨1, "INFP", "M", "none"⟩
        ⟨[⟨1, "INFP", "M", "none"⟩, ⟨2, "ENFJ", "F", "none"⟩], []⟩ 10 5).1.users,
      v.id = u.id ∧ v.mbti = u.mbti ∧ v.gender = u.gender ∧
        (u.id ≠ (⟨1, "INFP", "M", "none"⟩ : User).id → v = u)) :=
  requestMatch_success_postconditions ⟨1, "INFP", "M", "none"⟩ ⟨2, "ENFJ", "F", "none"⟩
    ⟨[⟨1, "INFP", "M", "none"⟩, ⟨2, "ENFJ", "F", "none"⟩], []⟩ 2 10 5
    (by decide) (by decide) rfl (by decide)

/-- Claim C3: when exactly one Match row has requester id `Q` and responder id
`cu.id`, and the requester's user row exists, `handle_matching_request` with
accept = true succeeds, sets that Match row's status to `accept`, leaves every
other Match row unchanged, and sets both the requester's and the responder's
stored `matching_status` to `accept`. -/
theorem respondToMatch_accept_effects (cu r : User) (db : DB) (Q : Nat)
    (m : Match) (hm : findMatches Q cu.id db = [m])
    (hr : dbGetUser db Q = some r) :
    (handle_matching_request Q true cu db).2 =
      .ok "Match request handled successfully" ∧
    { m with status := "accept" } ∈
      (handle_matching_request Q true cu db).1.matchRows ∧
    (∀ x ∈ db.matchRows, x.id ≠ m.id →
      x ∈ (handle_matching_request Q true cu db).1.matchRows) ∧
    (∀ u ∈ (handle_matching_request Q true cu db).1.users,
      u.id = Q → u.matching_status = "accept") ∧
    (∀ u ∈ (handle_matching_request Q true cu db).1.users,
      u.id = cu.id → u.matching_status = "accept") := by
  obtain ⟨hmem, hreq, hresp⟩ := findMatches_singleton Q cu.id db m hm
  have hres : handle_matching_request Q true cu db =
      ({ users := setUserStatus (setUserStatus db.users Q "accept") cu.id "accept",
         matchRows := setMatchStatus db.matchRows m.id "accept" },
        .ok "Match request handled successfully") := by
    simp [handle_matching_request, hm, hreq, hr]
  rw [hres]
  refine ⟨rfl, mem_setMatchStatus_self db.matchRows "accept" m hmem,
    fun x hx hne => mem_setMatchStatus_of_ne db.matchRows m.id "accept" x hx hne,
    ?_, ?_⟩
  · intro u hu hid
    by_cases hQ : Q = cu.id
    · exact setUserStatus_eq_status _ cu.id "accept" u hu (hid.trans hQ)
    · have h1 : u ∈ setUserStatus db.users Q "accept" :=
        setUserStatus_mem_of_ne _ cu.id "accept" u hu (by rw [hid]; exact hQ)
      exact setUserStatus_eq_status _ Q "accept" u h1 hid
  · exact fun u hu hid => setUserStatus_eq_status _ cu.id "accept" u hu hid

theorem respondToMatch_accept_effects_witness :
    (handle_matching_request 1 true ⟨2, "ENFJ", "F", "none"⟩
        ⟨[⟨1, "INFP", "M", "waiting"⟩, ⟨2, "ENFJ", "F", "none"⟩],
          [⟨10, 1, 2, "waiting", 5⟩]⟩).2 =
      .ok "Match request handled successfully" ∧
    ({ (⟨10, 1, 2, "waiting", 5⟩ : Match) with status := "accept" } ∈
      (handle_matching_request 1 true ⟨2, "ENFJ", "F", "none"⟩
        ⟨[⟨1, "INFP", "M", "waiting"⟩, ⟨2, "ENFJ", "F", "none"⟩],
          [⟨10, 1, 2, "waiting", 5⟩]⟩).1.matchRows) ∧
    (∀ x ∈ (⟨[⟨1, "INFP", "M", "waiting"⟩, ⟨2, "ENFJ", "F", "none"⟩],
          [⟨10, 1, 2, "waiting", 5⟩]⟩ : DB).matchRows,
      x.id ≠ (⟨10, 1, 2, "waiting", 5⟩ : Match).id →
      x ∈ (handle_matching_request 1 true ⟨2, "ENFJ", "F", "none"⟩
        ⟨[⟨1, "INFP", "M", "waiting"⟩, ⟨2, "ENFJ", "F", "none"⟩],
          [⟨10, 1, 2, "waiting", 5⟩]⟩).1.matchRows) ∧
    (∀ u ∈ (handle_matching_request 1 true ⟨2, "ENFJ", "F", "none"⟩
        ⟨[⟨1, "INFP", "M", "waiting"⟩, ⟨2, "ENFJ", "F", "none"⟩],
          [⟨10, 1, 2, "waiting", 5⟩]⟩).1.users,
      u.id = 1 → u.matching_status = "accept") ∧
    (∀ u ∈ (handle_matching_request 1 true ⟨2, "ENFJ", "F", "none"⟩
        ⟨[⟨1, "INFP", "M", "waiting"⟩, ⟨2, "ENFJ", "F", "none"⟩],
          [⟨10, 1, 2, "waiting", 5⟩]⟩).1.users,
      u.id = (⟨2, "ENFJ", "F", "none"⟩ : User).id → u.matching_status = "accept") :=
  respondToMatch_accept_effects ⟨2, "ENFJ", "F", "none"⟩ ⟨1, "INFP", "M", "waiting"⟩
    ⟨[⟨1, "INFP", "M", "waiting"⟩, ⟨2, "ENFJ", "F", "none"⟩],
      [⟨10, 1, 2, "waiting", 5⟩]⟩ 1 ⟨10, 1, 2, "waiting", 5⟩ rfl rfl

/-- Claim C4: when exactly one Match row has requester id `Q` and responder id
`cu.id`, `handle_matching_request` with accept = false succeeds, sets that
Match row's status to `reject`, leaves every other Match row unchanged, and
leaves the whole `User` table — in particular both parties' `matching_status`
— unchanged (no reset to `none`). -/
theorem respondToMatch_reject_effects (cu : User) (db : DB) (Q : Nat)
    (m : Match) (hm : findMatches Q cu.id db = [m]) :
    (handle_matching_request Q false cu db).2 =
      .ok "Match request handled successfully" ∧
    (handle_matching_request Q false cu db).1.users = db.users ∧
    { m with status := "reject" } ∈
      (handle_matching_request Q false cu db).1.matchRows ∧
    (∀ x ∈ db.matchRows, x.id ≠ m.id →
      x ∈ (handle_matching_request Q false cu db).1.matchRows) := by
  obtain ⟨hmem, hreq, hresp⟩ := findMatches_singleton Q cu.id db m hm
  have hres : handle_matching_request Q false cu db =
      ({ users := db.users, matchRows := setMatchStatus db.matchRows m.id "reject" },
        .ok "Match request handled successfully") := by
    simp [handle_matching_request, hm]
  rw [hres]
  exact ⟨rfl, rfl, mem_setMatchStatus_self db.matchRows "reject" m hmem,
    fun x hx hne => mem_setMatchStatus_of_ne db.matchRows m.id "reject" x hx hne⟩

theorem respondToMatch_reject_effects_witness :
    (handle_matching_request 1 false ⟨2, "ENFJ", "F", "none"⟩
        ⟨[⟨1, "INFP", "M", "waiting"⟩, ⟨2, "ENFJ", "F", "none"⟩],
          [⟨10, 1, 2, "waiting", 5⟩]⟩).2 =
      .ok "Match request handled successfully" ∧
    (handle_matching_request 1 false ⟨2, "ENFJ", "F", "none"⟩
        ⟨[⟨1, "INFP", "M", "waiting"⟩, ⟨2, "ENFJ", "F", "none"⟩],
          [⟨10, 1, 2, "waiting", 5⟩]⟩).1.users =
      (⟨[⟨1, "INFP", "M", "waiting"⟩, ⟨2, "ENFJ", "F", "none"⟩],
          [⟨10, 1, 2, "waiting", 5⟩]⟩ : DB).users ∧
    ({ (⟨10, 1, 2, "waiting", 5⟩ : Match) with status := "reject" } ∈
      (handle_matching_request 1 false ⟨2, "ENFJ", "F", "none"⟩
        ⟨[⟨1, "INFP", "M", "waiting"⟩, ⟨2, "ENFJ", "F", "none"⟩],
          [⟨10, 1, 2, "waiting", 5⟩]⟩).1.matchRows) ∧
    (∀ x ∈ (⟨[⟨1, "INFP", "M", "waiting"⟩, ⟨2, "ENFJ", "F", "none"⟩],
          [⟨10, 1, 2, "waiting", 5⟩]⟩ : DB).matchRows,
      x.id ≠ (⟨10, 1, 2, "waiting", 5⟩ : Match).id →
      x ∈ (handle_matching_request 1 false ⟨2, "ENFJ", "F", "none"⟩
        ⟨[⟨1, "INFP", "M", "waiting"⟩, ⟨2, "ENFJ", "F", "none"⟩],
          [⟨10, 1, 2, "waiting", 5⟩]⟩).1.matchRows) :=
  respondToMatch_reject_effects ⟨2, "ENFJ", "F", "none"⟩
    ⟨[⟨1, "INFP", "M", "waiting"⟩, ⟨2, "ENFJ", "F", "none"⟩],
      [⟨10, 1, 2, "waiting", 5⟩]⟩ 1 ⟨10, 1, 2, "waiting", 5⟩ rfl

/-- Claim C5 counterexample: the match lookup in `handle_matching_request` has
no status filter, so a Match that already reached `accept` can be responded to
again.  Concretely: user 1 requests user 2 (match 10 is `waiting`), user 2
accepts (match 10 becomes `accept`), and a second respond call by user 2 with
accept = false changes match 10 to `reject` — the status changes again after
reaching a terminal state. -/
theorem matchStatus_terminal_not_sticky :
    ((handle_matching_request 1 true ⟨2, "ENFJ", "F", "none"⟩
        (send_matching_request 2 ⟨1, "INFP", "M", "none"⟩
          ⟨[⟨1, "INFP", "M", "none"⟩, ⟨2, "ENFJ", "F", "none"⟩], []⟩
          10 5).1).1).matchRows = [⟨10, 1, 2, "accept", 5⟩] ∧
    ((handle_matching_request 1 false ⟨2, "ENFJ", "F", "accept"⟩
        ((handle_matching_request 1 true ⟨2, "ENFJ", "F", "none"⟩
          (send_matching_request 2 ⟨1, "INFP", "M", "none"⟩
            ⟨[⟨1, "INFP", "M", "none"⟩, ⟨2, "ENFJ", "F", "none"⟩], []⟩
            10 5).1).1)).1).matchRows = [⟨10, 1, 2, "reject", 5⟩] := by
  decide

/-- Claim C5 (amended: the transition out of `waiting` is not enforced to
happen exactly once — `handle_matching_request` never inspects the current
status, so any respond call whose lookup finds exactly one Match row
overwrites that row's status with the new decision, even when it is already
`accept` or `reject`): the found Match row's status after the call is
`accept` when accept = true and `reject` otherwise, whatever it was before. -/
theorem respondToMatch_overwrites_status (cu : User) (db : DB) (Q : Nat)
    (m : Match) (acc : Bool) (hm : findMatches Q cu.id db = [m]) :
    { m with status := if acc then "accept" else "reject" } ∈
      (handle_matching_request Q acc cu db).1.matchRows ∧
    (handle_matching_request Q acc cu db).2 =
      .ok "Match request handled successfully" := by
  obtain ⟨hmem, hreq, hresp⟩ := findMatches_singleton Q cu.id db m hm
  cases acc with
  | false =>
      have hres : (handle_matching_request Q false cu db).1.matchRows =
          setMatchStatus db.matchRows m.id "reject" ∧
          (handle_matching_request Q false cu db).2 =
            .ok "Match request handled successfully" := by
        simp [handle_matching_request, hm]
      refine ⟨?_, hres.2⟩
      rw [hres.1]
      exact mem_setMatchStatus_self db.matchRows "reject" m hmem
  | true =>
      cases hg : dbGetUser db m.requester_id with
      | none =>
          have hres : (handle_matching_request Q true cu db).1.matchRows =
              setMatchStatus db.matchRows m.id "accept" ∧
              (handle_matching_request Q true cu db).2 =
                .ok "Match request handled successfully" := by
            simp [handle_matching_request, hm, hg]
          refine ⟨?_, hres.2⟩
          rw [hres.1]
          exact mem_setMatchStatus_self db.matchRows "accept" m hmem
      | some r =>
          have hres : (handle_matching_request Q true cu db).1.matchRows =
              setMatchStatus db.matchRows m.id "accept" ∧
              (handle_matching_request Q true cu db).2 =
                .ok "Match request handled successfully" := by
            simp [handle_matching_request, hm, hg]
          refine ⟨?_, hres.2⟩
          rw [hres.1]
          exact mem_setMatchStatus_self db.matchRows "accept" m hmem

theorem respondToMatch_overwrites_status_witness :
    { (⟨10, 1, 2, "accept", 5⟩ : Match) with
        status := if false then "accept" else "reject" } ∈
      (handle_matching_request 1 false ⟨2, "ENFJ", "F", "accept"⟩
        ⟨[⟨1, "INFP", "M", "accept"⟩, ⟨2, "ENFJ", "F", "accept"⟩],
          [⟨10, 1, 2, "accept", 5⟩]⟩).1.matchRows ∧
    (handle_matching_request 1 false ⟨2, "ENFJ", "F", "accept"⟩
        ⟨[⟨1, "INFP", "M", "accept"⟩, ⟨2, "ENFJ", "F", "accept"⟩],
          [⟨10, 1, 2, "accept", 5⟩]⟩).2 =
      .ok "Match request handled successfully" :=
  respondToMatch_overwrites_status ⟨2, "ENFJ", "F", "accept"⟩
    ⟨[⟨1, "INFP", "M", "accept"⟩, ⟨2, "ENFJ", "F", "accept"⟩],
      [⟨10, 1, 2, "accept", 5⟩]⟩ 1 ⟨10, 1, 2, "accept", 5⟩ false rfl

/-- Claim C6: every user in a successful `get_matching_list` result satisfies
the WHERE clause: `matching_status` is `none`, the gender differs from the
requesting user's, and the id differs from the requesting user's. -/
theorem listCandidates_filter_sound (cu : User) (db : DB) (L : List User)
    (hperm : L.Perm (eligibleCandidates cu db)) (us : List User)
    (hok : get_matching_list L = .ok us) :
    ∀ u ∈ us, u.matching_status = "none" ∧ u.gender ≠ cu.gender ∧
      u.id ≠ cu.id := by
  intro u hu
  have hus : us = L.take 4 := by
    by_cases h : (L.take 4).isEmpty
    · simp [get_matching_list, h] at hok
    · simp [get_matching_list, h] at hok
      exact hok.symm
  have hL : u ∈ L := List.take_subset 4 L (hus ▸ hu)
  have helig : u ∈ eligibleCandidates cu db := hperm.mem_iff.mp hL
  simp only [eligibleCandidates, List.mem_filter, Bool.and_eq_true, beq_iff_eq,
    bne_iff_ne, ne_eq] at helig
  exact ⟨helig.2.1.1, helig.2.1.2, helig.2.2⟩

theorem listCandidates_filter_sound_witness :
    (⟨2, "ENFJ", "F", "none"⟩ : User).matching_status = "none" ∧
    (⟨2, "ENFJ", "F", "none"⟩ : User).gender ≠
      (⟨1, "INFP", "M", "none"⟩ : User).gender ∧
    (⟨2, "ENFJ", "F", "none"⟩ : User).id ≠
      (⟨1, "INFP", "M", "none"⟩ : User).id :=
  listCandidates_filter_sound ⟨1, "INFP", "M", "none"⟩
    ⟨[⟨1, "INFP", "M", "none"⟩, ⟨2, "ENFJ", "F", "none"⟩], []⟩
    [⟨2, "ENFJ", "F", "none"⟩] (List.Perm.refl _) [⟨2, "ENFJ", "F", "none"⟩] rfl
    ⟨2, "ENFJ", "F", "none"⟩ (by decide)

/-- Claim C7: a successful `get_matching_list` result has at most 4 users,
and — for any ordering the database may produce for this query (`L` a
permutation of the eligible rows sorted by compatibility tier, the rest
decided by `func.random()` per call) — every returned candidate whose mbti is
in the requesting user's compatibility list comes strictly before every
returned candidate whose mbti is not. -/
theorem listCandidates_ranked_and_bounded (cu : User) (db : DB) (L : List User)
    (hord : IsCandidateOrdering cu db L) (us : List User)
    (hok : get_matching_list L = .ok us) :
    us.length ≤ 4 ∧
    us.Pairwise (fun a b => b.mbti ∈ mbti_compatibility cu.mbti →
      a.mbti ∈ mbti_compatibility cu.mbti) := by
  have hus : us = L.take 4 := by
    by_cases h : (L.take 4).isEmpty
    · simp [get_matching_list, h] at hok
    · simp [get_matching_list, h] at hok
      exact hok.symm
  constructor
  · rw [hus]
    exact List.length_take_le 4 L
  · have hp : L.Pairwise (fun a b => candTier cu a ≤ candTier cu b) := hord.2
    have hsub : us.Sublist L := hus ▸ List.take_sublist 4 L
    refine (hp.sublist hsub).imp ?_
    intro a b hab hb
    by_contra ha
    rw [candTier, candTier, if_pos hb, if_neg ha] at hab
    omega

theorem listCandidates_ranked_and_bounded_witness :
    ([(⟨2, "ENFJ", "F", "none"⟩ : User), ⟨3, "ISTJ", "F", "none"⟩] : List User).length ≤ 4 ∧
    ([(⟨2, "ENFJ", "F", "none"⟩ : User), ⟨3, "ISTJ", "F", "none"⟩] : List User).Pairwise
      (fun a b => b.mbti ∈ mbti_compatibility (⟨1, "INFP", "M", "none"⟩ : User).mbti →
        a.mbti ∈ mbti_compatibility (⟨1, "INFP", "M", "none"⟩ : User).mbti) :=
  listCandidates_ranked_and_bounded ⟨1, "INFP", "M", "none"⟩
    ⟨[⟨1, "INFP", "M", "none"⟩, ⟨2, "ENFJ", "F", "none"⟩, ⟨3, "ISTJ", "F", "none"⟩], []⟩
    [⟨2, "ENFJ", "F", "none"⟩, ⟨3, "ISTJ", "F", "none"⟩]
    ⟨List.Perm.refl _, by decide⟩
    [⟨2, "ENFJ", "F", "none"⟩, ⟨3, "ISTJ", "F", "none"⟩] rfl

/-- Claim C8: when no user satisfies the candidate WHERE clause,
`get_matching_list` fails with the 404 error rather than returning an empty
list; and a successful result is never the empty list. -/
theorem listCandidates_empty_is_error (cu : User) (db : DB) (L : List User)
    (hperm : L.Perm (eligibleCandidates cu db)) :
    (eligibleCandidates cu db = [] →
      get_matching_list L = .error (.http 404 "No matching users found")) ∧
    (∀ us, get_matching_list L = .ok us → us ≠ []) := by
  constructor
  · intro h
    have hL : L = [] := List.Perm.eq_nil (h ▸ hperm)
    simp [get_matching_list, hL]
  · intro us hok hempty
    by_cases h : (L.take 4).isEmpty
    · simp [get_matching_list, h] at hok
    · simp [get_matching_list, h] at hok
      rw [hok, hempty] at h
      simp at h

theorem listCandidates_empty_is_error_witness :
    (eligibleCandidates ⟨1, "INFP", "M", "waiting"⟩ ⟨[⟨1, "INFP", "M", "waiting"⟩], []⟩ = [] →
      get_matching_list [] = .error (.http 404 "No matching users found")) ∧
    (∀ us, get_matching_list ([] : List User) = .ok us → us ≠ []) :=
  listCandidates_empty_is_error ⟨1, "INFP", "M", "waiting"⟩
    ⟨[⟨1, "INFP", "M", "waiting"⟩], []⟩ [] (List.Perm.refl _)

/-- Claim C9: for any ordering the database may produce (the relevant rows —
the user is a party and the status is waiting, accept or reject, terminal or
not — sorted by `created_at` descending), `get_matching_partner` fails with
404 when no relevant Match exists; otherwise the selected first row has the
greatest `created_at` among all relevant rows, and the handler returns the
other party of that row, or fails with 404 when that user row is missing. -/
theorem getActivePartner_spec (cu : User) (db : DB) (L : List Match)
    (hord : IsMatchOrdering cu db L) :
    (relevantMatches cu db = [] →
      get_matching_partner cu db L =
        .error (.http 404 "No matching partner found")) ∧
    (∀ m, L.head? = some m →
      m ∈ relevantMatches cu db ∧
      (∀ x ∈ relevantMatches cu db, x.created_at ≤ m.created_at) ∧
      (dbGetUser db (otherPartyId cu m) = none →
        get_matching_partner cu db L =
          .error (.http 404 "Matching partner not found")) ∧
      (∀ p, dbGetUser db (otherPartyId cu m) = some p →
        get_matching_partner cu db L = .ok p)) := by
  obtain ⟨hperm, hsort⟩ := hord
  constructor
  · intro h
    have hL : L = [] := List.Perm.eq_nil (h ▸ hperm)
    simp [get_matching_partner, hL]
  · intro m hm
    obtain ⟨t, rfl⟩ : ∃ t, L = m :: t := by
      cases L with
      | nil => simp at hm
      | cons a t =>
          simp only [List.head?_cons, Option.some_inj] at hm
          exact ⟨t, by rw [hm]⟩
    have hmem : m ∈ relevantMatches cu db :=
      hperm.mem_iff.mp (List.mem_cons_self m t)
    obtain ⟨hhead, -⟩ := List.pairwise_cons.mp hsort
    refine ⟨hmem, ?_, ?_, ?_⟩
    · intro x hx
      rcases List.mem_cons.mp (hperm.mem_iff.mpr hx) with h | h
      · rw [h]
      · exact hhead x h
    · intro hnone
      simp [get_matching_partner, hnone]
    · intro p hp
      simp [get_matching_partner, hp]

theorem getActivePartner_spec_witness :
    get_matching_partner ⟨1, "INFP", "M", "accept"⟩
      ⟨[⟨1, "INFP", "M", "accept"⟩, ⟨2, "ENFJ", "F", "accept"⟩],
        [⟨10, 1, 2, "accept", 5⟩]⟩
      [⟨10, 1, 2, "accept", 5⟩] = .ok ⟨2, "ENFJ", "F", "accept"⟩ :=
  ((getActivePartner_spec ⟨1, "INFP", "M", "accept"⟩
      ⟨[⟨1, "INFP", "M", "accept"⟩, ⟨2, "ENFJ", "F", "accept"⟩],
        [⟨10, 1, 2, "accept", 5⟩]⟩
      [⟨10, 1, 2, "accept", 5⟩]
      ⟨List.Perm.refl _, by decide⟩).2
    ⟨10, 1, 2, "accept", 5⟩ rfl).2.2.2 ⟨2, "ENFJ", "F", "accept"⟩ rfl

/-- Claim C10: when two or more Match rows share the same requester id `Q` and
responder id `cu.id`, `handle_matching_request` fails with SQLAlchemy's
`MultipleResultsFound` (raised by `scalar_one_or_none`), which is distinct
from every HTTP domain error (404 NotFound, 400 Conflict, 401 Unauthorized),
and the store is unchanged. -/
theorem respondToMatch_multiple_rows (cu : User) (db : DB) (Q : Nat)
    (acc : Bool) (h2 : 2 ≤ (findMatches Q cu.id db).length) :
    handle_matching_request Q acc cu db = (db, .error .multipleResultsFound) ∧
    ∀ c d, (ApiError.multipleResultsFound : ApiError) ≠ .http c d := by
  constructor
  · cases hF : findMatches Q cu.id db with
    | nil => rw [hF] at h2; simp at h2
    | cons a t =>
        cases t with
        | nil => rw [hF] at h2; simp at h2
        | cons b t2 => simp [handle_matching_request, hF]
  · exact fun c d h => ApiError.noConfusion h

theorem respondToMatch_multiple_rows_witness :
    handle_matching_request 1 true ⟨2, "ENFJ", "F", "none"⟩
      ⟨[⟨1, "INFP", "M", "waiting"⟩, ⟨2, "ENFJ", "F", "none"⟩],
        [⟨10, 1, 2, "waiting", 5⟩, ⟨11, 1, 2, "waiting", 6⟩]⟩ =
    (⟨[⟨1, "INFP", "M", "waiting"⟩, ⟨2, "ENFJ", "F", "none"⟩],
        [⟨10, 1, 2, "waiting", 5⟩, ⟨11, 1, 2, "waiting", 6⟩]⟩,
      .error .multipleResultsFound) ∧
    ∀ c d, (ApiError.multipleResultsFound : ApiError) ≠ .http c d :=
  respondToMatch_multiple_rows ⟨2, "ENFJ", "F", "none"⟩
    ⟨[⟨1, "INFP", "M", "waiting"⟩, ⟨2, "ENFJ", "F", "none"⟩],
      [⟨10, 1, 2, "waiting", 5⟩, ⟨11, 1, 2, "waiting", 6⟩]⟩ 1 true (by decide)
